import Mathlib

set_option maxRecDepth 8000

namespace FIT5136

/-! Shallow embedding of the scheduling core of the booking system:
`src/utils/date_util.py`, `src/utils/file_util.py`, `src/entities/appointment.py`,
`src/entities/doctor_schedule.py`, `src/repositories/appointment_repository.py`,
`src/repositories/base_repository.py` and `src/services/appointment_service.py`.

Conventions of the embedding:
* Python strings are Lean `String`s; Python ints occurring in the data
  (ids, user/doctor/clinic ids, time slots) are `Nat` (they are non-negative
  in every record the system writes); instants are counted in seconds.
* The persisted CSV state of a repository is modelled as the list of parsed
  entities, in file order; a full-file rewrite is the corresponding list
  transformation.
* Fallible Python code (a `raise`) is modelled with `Except`/`Option`. -/

def strScheduled : String := "Scheduled"

def strCompleted : String := "Completed"

def strCancelledByPatient : String := "Cancelled by Patient"

def strCancelledByClinic : String := "Cancelled by Clinic"

def strZero : String := "0"

def strEmpty : String := ""

/-- Model of Python's hex digit for `format(value, 'x')`: 0-9 then a-f
(48 is the code of the character for zero, 87 + 10 the code of the letter a). -/
def hexDigitChar (n : Nat) : Char :=
  if n < 10 then Char.ofNat (48 + n) else Char.ofNat (87 + n)

/-- Fuel-based digit accumulation for `format(value, 'x')` (most significant
digit first); fuel `n + 1` always suffices since the value shrinks by a factor
of 16 at each step. -/
def toHexCore : Nat → Nat → List Char → List Char
  | 0, _, ds => ds
  | fuel + 1, n, ds =>
    if n < 16 then hexDigitChar n :: ds
    else toHexCore fuel (n / 16) (hexDigitChar (n % 16) :: ds)

/-- Model of Python's `format(value, 'x')`: lowercase hexadecimal, no prefix,
and the single digit 0 for the value 0. -/
def toHex (n : Nat) : String :=
  String.mk (toHexCore (n + 1) n [])

/-- Value of one hexadecimal digit as accepted by Python's `int(s, 16)`
(0-9, a-f, A-F). -/
def hexDigitVal (c : Char) : Option Nat :=
  if 48 ≤ c.toNat ∧ c.toNat ≤ 57 then some (c.toNat - 48)
  else if 97 ≤ c.toNat ∧ c.toNat ≤ 102 then some (c.toNat - 87)
  else if 65 ≤ c.toNat ∧ c.toNat ≤ 70 then some (c.toNat - 55)
  else none

def parseHexCore (cs : List Char) : Option Nat :=
  cs.foldl (fun acc c =>
    match acc, hexDigitVal c with
    | some a, some d => some (a * 16 + d)
    | _, _ => none) (some 0)

/-- Model of Python's `int(s, 16)` on the inputs this system produces:
an optional 0x/0X prefix followed by hex digits; `none` models the
`ValueError` raised on the empty string or on a non-digit character
(whitespace and sign handling of the Python builtin are not exercised by
any stored mask and are not modelled). -/
def parseHex (s : String) : Option Nat :=
  match s.data with
  | [] => none
  | '0' :: 'x' :: rest => if rest = [] then none else parseHexCore rest
  | '0' :: 'X' :: rest => if rest = [] then none else parseHexCore rest
  | cs => parseHexCore cs

/-- The integer accumulated by `DateUtil.time_slots_to_hex` before formatting:
`value |= 1 << (slot - 1)` for each slot in the 1-16 range, slots outside the
range silently contributing nothing. -/
def slots_mask_value (time_slots : List Nat) : Nat :=
  time_slots.foldl (fun value slot =>
    if 1 ≤ slot ∧ slot ≤ 16 then value ||| (1 <<< (slot - 1)) else value) 0

/-- `DateUtil.time_slots_to_hex` from `src/utils/date_util.py`. -/
def time_slots_to_hex (time_slots : List Nat) : String :=
  if time_slots = [] then strZero else toHex (slots_mask_value time_slots)

/-- `DateUtil.hex_to_time_slots` from `src/utils/date_util.py`: empty or "0"
input gives the empty list, an unparsable string gives the empty list (the
`except ValueError` branch), otherwise slot `i + 1` is emitted for every set
bit `i` of the mask, for `i` ascending over `range 16`. -/
def hex_to_time_slots (hex_str : String) : List Nat :=
  if hex_str = strEmpty ∨ hex_str = strZero then []
  else
    match parseHex hex_str with
    | none => []
    | some value =>
      ((List.range 16).filter (fun i => (value &&& (1 <<< i)) != 0)).map (fun i => i + 1)

/-- `DateUtil.get_time_from_slot`: out-of-range slots give `(0, 0)`; otherwise
half-hour slots starting at 09:00, hour `9 + (slot - 1) / 2` and minute 0 or 30
by the parity of `slot - 1`. -/
def get_time_from_slot (time_slot : Nat) : Nat × Nat :=
  if time_slot < 1 ∨ time_slot > 16 then (0, 0)
  else (9 + (time_slot - 1) / 2, if (time_slot - 1) % 2 == 0 then 0 else 30)

/-- `DateUtil.datetime_from_date_and_slot`, in seconds. `dateDay` stands for
the day ordinal of the parsed `datetime.strptime(date_str, "%Y-%m-%d")`; the
calendar arithmetic of the parser is not itself under verification and the
invalid-date fallback (returning the current time) is not modelled. -/
def datetime_from_date_and_slot (dateDay : Nat) (time_slot : Nat) : Nat :=
  dateDay * 86400 + (get_time_from_slot time_slot).1 * 3600 +
    (get_time_from_slot time_slot).2 * 60

/-- The `Appointment` entity of `src/entities/appointment.py`, with the eight
persisted fields of `to_dict`. `id` is `none` until the repository assigns one. -/
structure Appointment where
  id : Option Nat
  user_id : Nat
  doctor_id : Nat
  clinic_id : Nat
  date : String
  time_slot : Nat
  reason : String
  status : String
  deriving DecidableEq

def Appointment.is_scheduled (a : Appointment) : Bool :=
  a.status == strScheduled

def Appointment.is_completed (a : Appointment) : Bool :=
  a.status == strCompleted

/-- `Appointment.is_cancelled`: true for either cancellation status string. -/
def Appointment.is_cancelled (a : Appointment) : Bool :=
  a.status == strCancelledByPatient || a.status == strCancelledByClinic

def Appointment.cancel_by_patient (a : Appointment) : Appointment :=
  { a with status := strCancelledByPatient }

/-- The `DoctorSchedule` entity of `src/entities/doctor_schedule.py`:
`time_slots` is the mask as a hexadecimal string, or `none`. -/
structure DoctorSchedule where
  id : Option Nat
  doctor_id : Nat
  clinic_id : Nat
  time_slots : Option String
  deriving DecidableEq

/-- `DoctorSchedule.is_available`: false on a falsy mask (`None` or the empty
string), otherwise bit `time_slot_index` of `int(time_slots, 16)`. The source
lets `int` raise on a malformed mask; that branch is modelled as `false` and is
never reached by any claim, all of which use well-formed masks. -/
def DoctorSchedule.is_available (s : DoctorSchedule) (time_slot_index : Nat) : Bool :=
  match s.time_slots with
  | none => false
  | some hx =>
    if hx = strEmpty then false
    else
      match parseHex hx with
      | some v => (v &&& (1 <<< time_slot_index)) != 0
      | none => false

/-- Combined persistent state of the two stores the booking engine touches:
the parsed appointment file, the parsed schedule file, and the `IdGenerator`
counter for the appointment entity type. -/
structure SysState where
  appointments : List Appointment
  schedules : List DoctorSchedule
  apptMaxId : Nat
  deriving DecidableEq

/-- The match condition of the loop in
`AppointmentRepository.get_by_doctor_date_slot`: same doctor, date and slot,
and status Scheduled. -/
def matchKey (doctor_id : Nat) (date : String) (time_slot : Nat) (a : Appointment) : Bool :=
  a.doctor_id == doctor_id && a.date == date && a.time_slot == time_slot && a.is_scheduled

/-- `AppointmentRepository.get_by_user`. -/
def get_by_user (appointments : List Appointment) (user_id : Nat) : List Appointment :=
  appointments.filter (fun a => a.user_id == user_id)

/-- `AppointmentRepository.get_by_doctor_date_slot`: first appointment matching
doctor, date, slot with status Scheduled. -/
def get_by_doctor_date_slot (appointments : List Appointment) (doctor_id : Nat)
    (date : String) (time_slot : Nat) : Option Appointment :=
  appointments.find? (matchKey doctor_id date time_slot)

/-- `AppointmentRepository.is_slot_booked`. -/
def is_slot_booked (appointments : List Appointment) (doctor_id : Nat)
    (date : String) (time_slot : Nat) : Bool :=
  (get_by_doctor_date_slot appointments doctor_id date time_slot).isSome

/-- Modelled from the spec: `ScheduleStore.getByDoctorClinic(doctor_id,
clinic_id)`. The schedule repository shipped under `src/` is a stale
date-keyed variant (it reads a `date` attribute the `DoctorSchedule` entity
does not have, and its `is_slot_available` takes four arguments while every
caller passes three), so the (doctor, clinic)-keyed lookup that
`appointment_service.py` and `appointment_repository.py` call is missing from
`src/` and is modelled here from the spec: the row for the (doctor, clinic)
pair. -/
def get_by_doctor_clinic (schedules : List DoctorSchedule)
    (doctor_id clinic_id : Nat) : Option DoctorSchedule :=
  schedules.find? (fun s => s.doctor_id == doctor_id && s.clinic_id == clinic_id)

/-- Modelled from the spec: `ScheduleStore.isSlotAvailable(doctor_id,
clinic_id, slot)`, the three-argument schedule availability check missing from
`src/` (only its callers are present): "false if no schedule row exists;
otherwise delegates to ... the stored mask" — the mask bit test being
`DoctorSchedule.is_available` from the source entity. -/
def schedule_is_slot_available (schedules : List DoctorSchedule)
    (doctor_id clinic_id : Nat) (time_slot : Nat) : Bool :=
  match get_by_doctor_clinic schedules doctor_id clinic_id with
  | none => false
  | some schedule => schedule.is_available time_slot

/-- `AppointmentRepository.is_slot_available`: false if the slot is booked,
otherwise the schedule check at mask index `time_slot - 1` (appointment slots
are 1-based, mask bits 0-based). The source would raise on `time_slot = 0`
(negative shift); claims are stated for `time_slot ≥ 1`, where Nat subtraction
agrees with the source. -/
def is_slot_available (st : SysState) (doctor_id clinic_id : Nat)
    (date : String) (time_slot : Nat) : Bool :=
  if is_slot_booked st.appointments doctor_id date time_slot then false
  else schedule_is_slot_available st.schedules doctor_id clinic_id (time_slot - 1)

/-- The three typed booking failures raised as `ValueError` by the source:
slot not available at commit, lead time under 2 hours, same user already
booked at the date and slot. -/
inductive BookingError where
  | slotUnavailable
  | leadTimeViolation
  | doubleBooking
  deriving DecidableEq

/-- `BaseRepository.add` together with `IdGenerator.next_id`: an entity without
an id gets `maxId + 1` and bumps the counter, an entity arriving with an id is
appended unchanged; the row is appended at the end of the file. -/
def add_entity (st : SysState) (a : Appointment) : SysState × Appointment :=
  match a.id with
  | some _ => ({ st with appointments := st.appointments ++ [a] }, a)
  | none =>
    let nid := st.apptMaxId + 1
    let a2 := { a with id := some nid }
    ({ st with appointments := st.appointments ++ [a2], apptMaxId := nid }, a2)

/-- `AppointmentRepository.add_appointment`: the source raises unless
`is_slot_available` holds, then delegates to `add` (same two branches, stated
positively here). -/
def add_appointment (st : SysState) (appointment : Appointment) :
    Except BookingError (SysState × Appointment) :=
  if is_slot_available st appointment.doctor_id appointment.clinic_id
      appointment.date appointment.time_slot then
    Except.ok (add_entity st appointment)
  else
    Except.error BookingError.slotUnavailable

/-- `FileUtil.update_row` as used by `BaseRepository.update`: every row whose
`id` equals the entity's is overwritten with the entity's full field dict,
every other row is left untouched. -/
def repo_update (appointments : List Appointment) (entity : Appointment) :
    List Appointment :=
  appointments.map (fun row => if row.id == entity.id then entity else row)

/-- `AppointmentRepository.cancel_appointment`: no-op returning false on an
already-cancelled appointment, otherwise `cancel_by_patient` then `update`,
returning true. Only the appointment file is touched. -/
def cancel_appointment (st : SysState) (appointment : Appointment) : SysState × Bool :=
  if appointment.is_cancelled then (st, false)
  else
    ({ st with appointments := repo_update st.appointments appointment.cancel_by_patient },
      true)

/-- `AppointmentService.make_appointment`: lead-time check first
(`hours_difference < 2`, i.e. fewer than 7200 seconds between `now` and the
slot instant), then the same-user double-booking scan over `get_by_user`, then
`add_appointment` on a fresh Scheduled appointment. The success-path
notification write goes to a separate store and is not modelled. -/
def make_appointment (st : SysState) (now : Int) (user_id doctor_id clinic_id : Nat)
    (date : String) (dateDay : Nat) (time_slot : Nat) (reason : String) :
    Except BookingError (SysState × Appointment) :=
  if (datetime_from_date_and_slot dateDay time_slot : Int) - now < 7200 then
    Except.error BookingError.leadTimeViolation
  else if (get_by_user st.appointments user_id).any (fun ea =>
      ea.date == date && ea.time_slot == time_slot && ea.is_scheduled) then
    Except.error BookingError.doubleBooking
  else
    add_appointment st
      { id := none, user_id := user_id, doctor_id := doctor_id, clinic_id := clinic_id,
        date := date, time_slot := time_slot, reason := reason, status := strScheduled }

/-- The core concurrency-safety invariant of the spec: at most one Scheduled
appointment per (doctor, date, slot) triple. -/
def AtMostOneScheduled (appointments : List Appointment) : Prop :=
  ∀ doctor_id date time_slot,
    appointments.countP (matchKey doctor_id date time_slot) ≤ 1

/-- States of the appointment store reachable through the core mutations: an
empty appointment file (with any schedule file and counter), a successful
`make_appointment`, a `cancel_appointment`, and an out-of-core schedule
administration step that rewrites the schedule file only. -/
inductive Reach : SysState → Prop where
  | init (schedules : List DoctorSchedule) (maxId : Nat) : Reach ⟨[], schedules, maxId⟩
  | make {st st2 : SysState} {a : Appointment} (now : Int)
      (user_id doctor_id clinic_id : Nat) (date : String) (dateDay : Nat)
      (time_slot : Nat) (reason : String) :
      Reach st →
      make_appointment st now user_id doctor_id clinic_id date dateDay time_slot reason =
        Except.ok (st2, a) →
      Reach st2
  | cancel {st : SysState} (a : Appointment) : Reach st → Reach (cancel_appointment st a).1
  | admin {st : SysState} (schedules : List DoctorSchedule) :
      Reach st → Reach { st with schedules := schedules }

/-! The CSV layer of `src/utils/file_util.py`, for the failure-policy claim.
A raw CSV row is the field-name/value pairs the `csv.DictReader` yields; the
file under read is modelled as the stream of read results, where an
`Except.error` marks the point at which the underlying iteration raises. -/

structure RawRow where
  fields : List (String × String)
  deriving DecidableEq

abbrev IoFailure := String

/-- The per-row post-processing of `FileUtil.read_csv`: an empty string value
becomes `None`, everything else is kept. -/
def processRow (r : RawRow) : List (String × Option String) :=
  r.fields.map (fun kv => (kv.1, if kv.2 = strEmpty then none else some kv.2))

/-- `FileUtil.read_csv`: rows are accumulated in order; when the iteration
raises, the exception is caught, printed, and the data accumulated so far is
returned as if the file ended there. -/
def read_csv : List (Except IoFailure RawRow) → List (List (String × Option String))
  | [] => []
  | Except.ok r :: rest => processRow r :: read_csv rest
  | Except.error _ :: _ => []

/-- `FileUtil.write_csv`: empty data truncates the file and returns true;
otherwise the write is attempted and any exception (`ioFailure = some e`) is
caught and printed, the call returning false instead of raising. -/
def write_csv (ioFailure : Option IoFailure) (data : List (List (String × Option String))) :
    Bool :=
  if data = [] then true
  else
    match ioFailure with
    | some _ => false
    | none => true

/-- Model of Python's `int(s)` on a decimal string: digits only, else the
`ValueError` branch (`none`). -/
def parseDec (s : String) : Option Nat :=
  if s.data ≠ [] ∧ s.data.all (fun c => decide (48 ≤ c.toNat) && decide (c.toNat ≤ 57)) then
    some (s.data.foldl (fun acc c => acc * 10 + (c.toNat - 48)) 0)
  else none

abbrev CorruptRecord := String

def strBadInt : String := "invalid literal for int"

/-- The numeric-field conversion performed by the entity constructors invoked
from `BaseRepository.get_all` (`int(x) if x is not None else None`): a missing
value silently stays `None`, a garbled value raises — the raise propagates out
of `get_all`, which does not catch it. -/
def pyInt (v : Option String) : Except CorruptRecord (Option Nat) :=
  match v with
  | none => Except.ok none
  | some s =>
    match parseDec s with
    | some n => Except.ok (some n)
    | none => Except.error strBadInt

/-! Concrete records used by counterexamples and witnesses. -/

def dateMar10 : String := "2025-03-10"

def reasonCheckup : String := "checkup"

def strOne : String := "1"

def strFFFF : String := "ffff"

def strDiskFail : String := "disk read failure"

def strGarbled : String := "12x3"

/-- A schedule whose mask has only bit 0 set: slot 1 in the code's 1-based
convention. -/
def schedBitZero : DoctorSchedule := ⟨some 1, 1, 1, some strOne⟩

def stC2 : SysState := ⟨[], [schedBitZero], 0⟩

def apptC4 : Appointment := ⟨some 1, 1, 1, 1, dateMar10, 3, reasonCheckup, strScheduled⟩

def stC4 : SysState := ⟨[apptC4], [], 1⟩

def schedAll : DoctorSchedule := ⟨some 1, 1, 1, some strFFFF⟩

def apptC7 : Appointment := ⟨some 1, 1, 1, 1, dateMar10, 3, reasonCheckup, strScheduled⟩

def stC7 : SysState := ⟨[apptC7], [schedAll], 1⟩

def apptCompleted : Appointment := ⟨some 1, 1, 1, 1, dateMar10, 3, reasonCheckup, strCompleted⟩

def stC8 : SysState := ⟨[apptCompleted], [], 1⟩

def apptCancelled : Appointment := ⟨some 2, 1, 1, 1, dateMar10, 4, reasonCheckup, strCancelledByClinic⟩

def apptC10a : Appointment := ⟨some 1, 1, 1, 1, dateMar10, 3, reasonCheckup, strScheduled⟩

def apptC10b : Appointment := ⟨some 2, 2, 1, 1, dateMar10, 4, reasonCheckup, strScheduled⟩

def stC10 : SysState := ⟨[apptC10a, apptC10b], [schedAll], 2⟩

/-- Pointwise effect of a patient cancellation of `a` on one persisted row:
rows with a different id are unchanged, a row with the same id keeps every
field except `status`, which becomes Cancelled by Patient. -/
def rowRel (a : Appointment) (oldRow newRow : Appointment) : Prop :=
  (oldRow.id ≠ a.id → newRow = oldRow) ∧
  (oldRow.id = a.id →
    newRow.id = oldRow.id ∧ newRow.user_id = oldRow.user_id ∧
    newRow.doctor_id = oldRow.doctor_id ∧ newRow.clinic_id = oldRow.clinic_id ∧
    newRow.date = oldRow.date ∧ newRow.time_slot = oldRow.time_slot ∧
    newRow.reason = oldRow.reason ∧ newRow.status = strCancelledByPatient)

/-! Helper lemmas shared by the claim theorems. -/

theorem matchKey_iff {doctor_id : Nat} {date : String} {time_slot : Nat} {a : Appointment} :
    matchKey doctor_id date time_slot a = true ↔
      a.doctor_id = doctor_id ∧ a.date = date ∧ a.time_slot = time_slot ∧
        a.is_scheduled = true := by
  simp [matchKey, Bool.and_eq_true, beq_iff_eq, and_assoc]

theorem is_slot_booked_false_iff {appointments : List Appointment} {doctor_id : Nat}
    {date : String} {time_slot : Nat} :
    is_slot_booked appointments doctor_id date time_slot = false ↔
      ∀ x ∈ appointments, matchKey doctor_id date time_slot x = false := by
  unfold is_slot_booked get_by_doctor_date_slot
  rw [← Bool.not_eq_true, List.find?_isSome]
  push_neg
  constructor
  · intro h x hx
    have := h x hx
    simpa using this
  · intro h x hx
    simp [h x hx]

theorem countP_two_le {α : Type} {p : α → Bool} :
    ∀ {l : List α} {x y : α}, x ∈ l → y ∈ l → x ≠ y → p x = true → p y = true →
      2 ≤ l.countP p
  | [], x, _, hx, _, _, _, _ => absurd hx (List.not_mem_nil x)
  | z :: zs, x, y, hx, hy, hxy, hpx, hpy => by
    rw [List.countP_cons]
    rcases List.mem_cons.mp hx with rfl | hx2
    · rcases List.mem_cons.mp hy with rfl | hy2
      · exact absurd rfl hxy
      · have h1 : 0 < zs.countP p := List.countP_pos_iff.mpr ⟨y, hy2, hpy⟩
        simp only [hpx, if_true]
        omega
    · rcases List.mem_cons.mp hy with rfl | hy2
      · have h1 : 0 < zs.countP p := List.countP_pos_iff.mpr ⟨x, hx2, hpx⟩
        simp only [hpy, if_true]
        omega
      · have h2 := countP_two_le hx2 hy2 hxy hpx hpy
        omega

theorem nodup_id_eq :
    ∀ {l : List Appointment}, (l.map Appointment.id).Nodup →
      ∀ {x y : Appointment}, x ∈ l → y ∈ l → x.id = y.id → x = y
  | [], _, x, _, hx, _, _ => absurd hx (List.not_mem_nil x)
  | z :: zs, hnd, x, y, hx, hy, hid => by
    rw [List.map_cons, List.nodup_cons] at hnd
    rcases List.mem_cons.mp hx with rfl | hx2
    · rcases List.mem_cons.mp hy with rfl | hy2
      · rfl
      · exact absurd (by rw [hid]; exact List.mem_map_of_mem _ hy2) hnd.1
    · rcases List.mem_cons.mp hy with rfl | hy2
      · exact absurd (by rw [← hid]; exact List.mem_map_of_mem _ hx2) hnd.1
      · exact nodup_id_eq hnd.2 hx2 hy2 hid

theorem countP_map_le {α : Type} (p : α → Bool) (f : α → α)
    (hf : ∀ x, p (f x) = true → p x = true) :
    ∀ l : List α, (l.map f).countP p ≤ l.countP p
  | [] => by simp
  | x :: xs => by
    have ih := countP_map_le p f hf xs
    rw [List.map_cons]
    by_cases hx : p (f x) = true
    · rw [List.countP_cons_of_pos _ _ hx, List.countP_cons_of_pos _ _ (hf x hx)]
      omega
    · rw [List.countP_cons_of_neg _ _ hx]
      by_cases hx2 : p x = true
      · rw [List.countP_cons_of_pos _ _ hx2]
        omega
      · rw [List.countP_cons_of_neg _ _ hx2]
        exact ih

theorem countP_singleton_le {α : Type} (p : α → Bool) (b : α) : List.countP p [b] ≤ 1 := by
  by_cases h : p b = true
  · simp [List.countP_cons, h]
  · simp [List.countP_cons, h]

theorem add_entity_spec (st : SysState) (a : Appointment) :
    (add_entity st a).1.appointments = st.appointments ++ [(add_entity st a).2] ∧
    (add_entity st a).2.doctor_id = a.doctor_id ∧ (add_entity st a).2.date = a.date ∧
    (add_entity st a).2.time_slot = a.time_slot ∧ (add_entity st a).2.status = a.status := by
  unfold add_entity
  cases a.id <;> simp

theorem addAppointment_ok_preserves {st st2 : SysState} {a a2 : Appointment}
    (hInv : AtMostOneScheduled st.appointments)
    (h : add_appointment st a = Except.ok (st2, a2)) :
    AtMostOneScheduled st2.appointments := by
  unfold add_appointment at h
  split at h
  case isFalse => simp at h
  case isTrue hav =>
    injection h with h2
    have hs2 : st2 = (add_entity st a).1 := by rw [h2]
    have hbooked : is_slot_booked st.appointments a.doctor_id a.date a.time_slot = false := by
      unfold is_slot_available at hav
      by_contra hb
      rw [Bool.not_eq_false] at hb
      rw [if_pos hb] at hav
      cases hav
    have hzero : st.appointments.countP (matchKey a.doctor_id a.date a.time_slot) = 0 := by
      rw [List.countP_eq_zero]
      intro x hx
      simp [is_slot_booked_false_iff.mp hbooked x hx]
    intro d date t
    have hA := add_entity_spec st a
    rw [hs2, hA.1, List.countP_append]
    by_cases hm : matchKey d date t (add_entity st a).2 = true
    · obtain ⟨k1, k2, k3, _⟩ := matchKey_iff.mp hm
      have hd : d = a.doctor_id := by rw [← k1, hA.2.1]
      have hdt : date = a.date := by rw [← k2, hA.2.2.1]
      have ht : t = a.time_slot := by rw [← k3, hA.2.2.2.1]
      rw [hd, hdt, ht, hzero]
      simpa using countP_singleton_le (matchKey a.doctor_id a.date a.time_slot)
        (add_entity st a).2
    · have h0 : List.countP (matchKey d date t) [(add_entity st a).2] = 0 := by
        rw [List.countP_eq_zero]
        intro y hy
        rw [List.mem_singleton] at hy
        rw [hy]
        exact hm
      rw [h0]
      have h3 := hInv d date t
      omega

theorem cancelAppointment_preserves (st : SysState) (a : Appointment)
    (hInv : AtMostOneScheduled st.appointments) :
    AtMostOneScheduled (cancel_appointment st a).1.appointments := by
  unfold cancel_appointment
  split
  · exact hInv
  · intro d date t
    have hns : ∀ y, matchKey d date t (if (y.id == a.cancel_by_patient.id) = true
        then a.cancel_by_patient else y) = true → matchKey d date t y = true := by
      intro y hy
      by_cases hid : (y.id == a.cancel_by_patient.id) = true
      · rw [if_pos hid] at hy
        have h1 : (a.cancel_by_patient).is_scheduled = false := by
          show (strCancelledByPatient == strScheduled) = false
          decide
        rw [(matchKey_iff.mp hy).2.2.2] at h1
        cases h1
      · rw [if_neg hid] at hy
        exact hy
    exact le_trans (countP_map_le _ _ hns st.appointments) (hInv d date t)

theorem make_ok_add {st st2 : SysState} {a2 : Appointment} {now : Int}
    {user_id doctor_id clinic_id : Nat} {date : String} {dateDay : Nat}
    {time_slot : Nat} {reason : String}
    (h : make_appointment st now user_id doctor_id clinic_id date dateDay time_slot reason =
      Except.ok (st2, a2)) :
    ∃ b, add_appointment st b = Except.ok (st2, a2) := by
  unfold make_appointment at h
  split at h
  · simp at h
  · split at h
    · simp at h
    · exact ⟨_, h⟩

/-- Claim C1: every state reachable through the core mutations satisfies the
at-most-one-Scheduled-per-(doctor, date, slot) invariant; `add_appointment`
(as invoked by `make_appointment`) and `cancel_appointment` each preserve the
invariant; and `add_appointment` fails with the slot-unavailable error
whenever the re-validated `is_slot_available` check does not hold. -/
theorem C1_invariant :
    (∀ st : SysState, Reach st → AtMostOneScheduled st.appointments) ∧
    (∀ (st st2 : SysState) (a a2 : Appointment),
      AtMostOneScheduled st.appointments →
      add_appointment st a = Except.ok (st2, a2) →
      AtMostOneScheduled st2.appointments) ∧
    (∀ (st : SysState) (a : Appointment),
      AtMostOneScheduled st.appointments →
      AtMostOneScheduled (cancel_appointment st a).1.appointments) ∧
    (∀ (st : SysState) (a : Appointment),
      is_slot_available st a.doctor_id a.clinic_id a.date a.time_slot = false →
      add_appointment st a = Except.error BookingError.slotUnavailable) := by
  have hReach : ∀ st : SysState, Reach st → AtMostOneScheduled st.appointments := by
    intro st hR
    induction hR with
    | init schedules maxId =>
      intro d date t
      simp
    | make now user_id doctor_id clinic_id date dateDay time_slot reason hR hok ih =>
      obtain ⟨b, hb⟩ := make_ok_add hok
      exact addAppointment_ok_preserves ih hb
    | cancel a hR ih =>
      exact cancelAppointment_preserves _ _ ih
    | admin schedules hR ih =>
      exact ih
  refine ⟨hReach, ?_, ?_, ?_⟩
  · intro st st2 a a2 h1 h2
    exact addAppointment_ok_preserves h1 h2
  · intro st a h1
    exact cancelAppointment_preserves st a h1
  · intro st a h
    unfold add_appointment
    rw [if_neg (by simp [h])]

/-- Witness for C1 at a concrete input: the invariant holds at the initial
empty store, by the reachability conjunct. -/
theorem C1_witness : AtMostOneScheduled (⟨[], [], 0⟩ : SysState).appointments :=
  C1_invariant.1 ⟨[], [], 0⟩ (Reach.init [] 0)

/-- Counterexample for C2 as stated: in a state with no appointments and a
schedule whose mask is "1" (bit 0 set), `is_slot_available` for slot 1 is
true although the slot is not booked and the schedule check at the same slot
index 1 is false — the code consults mask bit `time_slot - 1`, not
`time_slot`. -/
theorem C2_counterexample :
    is_slot_available stC2 1 1 dateMar10 1 = true ∧
    ((!is_slot_booked stC2.appointments 1 dateMar10 1) &&
      schedule_is_slot_available stC2.schedules 1 1 1) = false := by decide

/-- Claim C2 (amended): for 1-based slots, `is_slot_available` is the
conjunction of not-booked and the schedule-store availability check at mask
index `time_slot - 1`. -/
theorem C2_is_slot_available_spec (st : SysState) (doctor_id clinic_id : Nat)
    (date : String) (time_slot : Nat) (h : 1 ≤ time_slot) :
    is_slot_available st doctor_id clinic_id date time_slot =
      ((!is_slot_booked st.appointments doctor_id date time_slot) &&
        schedule_is_slot_available st.schedules doctor_id clinic_id (time_slot - 1)) := by
  unfold is_slot_available
  cases hb : is_slot_booked st.appointments doctor_id date time_slot <;> simp

/-- Witness for C2 at a concrete input. -/
theorem C2_witness :
    is_slot_available stC2 1 1 dateMar10 3 =
      ((!is_slot_booked stC2.appointments 1 dateMar10 3) &&
        schedule_is_slot_available stC2.schedules 1 1 (3 - 1)) :=
  C2_is_slot_available_spec stC2 1 1 dateMar10 3 (by decide)

/-- Counterexample for C3 as stated: the claimed mapping puts the last slot at
17:30 and the first post-lunch slot at 13:00; the code's slots are contiguous:
the last slot (16, the claim's 15) starts 16:30, the claim's slot 6 (code
slot 7) starts 12:00, and under a direct 0-based reading slot 15 starts 16:00
and slot 6 starts 11:30 — the claimed anchors fail under either alignment. -/
theorem C3_counterexample :
    get_time_from_slot 16 = (16, 30) ∧ get_time_from_slot 15 = (16, 0) ∧
      get_time_from_slot 7 = (12, 0) ∧ get_time_from_slot 6 = (11, 30) := by decide

/-- Claim C3 (amended): `make_appointment` fails with the lead-time error
exactly when the slot instant is less than 2 hours (7200 s) after `now` — for
every store state, hence regardless of availability, and with no mutation —
where the instant comes from the contiguous mapping slot 1 = 09:00,
slot 6 = 11:30, slot 7 = 12:00, slot 16 = 16:30. -/
theorem C3_lead_time (st : SysState) (now : Int) (user_id doctor_id clinic_id : Nat)
    (date : String) (dateDay : Nat) (time_slot : Nat) (reason : String) :
    (make_appointment st now user_id doctor_id clinic_id date dateDay time_slot reason =
        Except.error BookingError.leadTimeViolation ↔
      (datetime_from_date_and_slot dateDay time_slot : Int) - now < 7200) ∧
    get_time_from_slot 1 = (9, 0) ∧ get_time_from_slot 6 = (11, 30) ∧
      get_time_from_slot 7 = (12, 0) ∧ get_time_from_slot 16 = (16, 30) := by
  refine ⟨?_, by decide, by decide, by decide, by decide⟩
  unfold make_appointment
  split
  case isTrue h => simpa using h
  case isFalse h =>
    constructor
    · intro hEq
      split at hEq
      · simp at hEq
      · unfold add_appointment at hEq
        split at hEq <;> simp at hEq
    · intro hc
      exact absurd hc h

/-- Claim C4: when the lead-time gate passes, `make_appointment` fails with
the double-booking error exactly when the user already holds a Scheduled
appointment at the same (date, slot) — for any doctor and clinic; when no
such appointment exists the check passes. -/
theorem C4_double_booking (st : SysState) (now : Int) (user_id doctor_id clinic_id : Nat)
    (date : String) (dateDay : Nat) (time_slot : Nat) (reason : String)
    (hlead : 7200 ≤ (datetime_from_date_and_slot dateDay time_slot : Int) - now) :
    make_appointment st now user_id doctor_id clinic_id date dateDay time_slot reason =
        Except.error BookingError.doubleBooking ↔
      ∃ ea ∈ get_by_user st.appointments user_id,
        ea.date = date ∧ ea.time_slot = time_slot ∧ ea.is_scheduled = true := by
  unfold make_appointment
  rw [if_neg (by omega)]
  split
  case isTrue h =>
    simp only [true_iff]
    have h2 := List.any_eq_true.mp h
    rcases h2 with ⟨ea, hmem, hp⟩
    simp only [Bool.and_eq_true, beq_iff_eq] at hp
    exact ⟨ea, hmem, hp.1.1, hp.1.2, hp.2⟩
  case isFalse h =>
    constructor
    · intro hEq
      unfold add_appointment at hEq
      split at hEq <;> simp at hEq
    · intro hEx
      rcases hEx with ⟨ea, hmem, h1, h2, h3⟩
      exact absurd (List.any_eq_true.mpr ⟨ea, hmem, by simp [h1, h2, h3]⟩) h

/-- Witness for C4 at a concrete input: the booking user already holds a
Scheduled appointment at the same date and slot with a different doctor. -/
theorem C4_witness :
    make_appointment stC4 0 1 2 1 dateMar10 739000 3 reasonCheckup =
      Except.error BookingError.doubleBooking :=
  (C4_double_booking stC4 0 1 2 1 dateMar10 739000 3 reasonCheckup (by decide)).mpr
    ⟨apptC4, by decide, by decide, by decide, by decide⟩

/-- Claim C5: the codec round-trips a single valid slot (the code's valid
range being 1-16), and for every mask string the decoded slot sequence is
strictly ascending with at most 16 elements. -/
theorem C5_roundtrip_and_order :
    (∀ slot : Nat, 1 ≤ slot → slot ≤ 16 →
      hex_to_time_slots (time_slots_to_hex [slot]) = [slot]) ∧
    (∀ hex_str : String, List.Sorted (· < ·) (hex_to_time_slots hex_str) ∧
      (hex_to_time_slots hex_str).length ≤ 16) := by
  constructor
  · intro slot h1 h2
    interval_cases slot <;> decide
  · intro hex_str
    unfold hex_to_time_slots
    split
    · exact ⟨List.sorted_nil, by simp⟩
    · cases parseHex hex_str with
      | none => exact ⟨List.sorted_nil, by simp⟩
      | some value =>
        constructor
        · exact ((List.pairwise_lt_range 16).filter _).map _ (by omega)
        · calc (((List.range 16).filter _).map (fun i => i + 1)).length
              = ((List.range 16).filter _).length := List.length_map _ _
            _ ≤ (List.range 16).length := List.length_filter_le _ _
            _ = 16 := List.length_range 16

/-- Witness for C5 at a concrete input. -/
theorem C5_witness : hex_to_time_slots (time_slots_to_hex [3]) = [3] :=
  C5_roundtrip_and_order.1 3 (by decide) (by decide)

/-- Counterexample for C6 as stated: the single-slot mask for slot 3 is 4
(bit 2), not `1 <<< (15 - 3)` = 4096, and an out-of-range slot yields the
mask string "0" with no failure rather than an InvalidSlot error. -/
theorem C6_counterexample :
    slots_mask_value [3] = 4 ∧ slots_mask_value [3] ≠ 2 ^ (15 - 3) ∧
      time_slots_to_hex [99] = strZero := by decide

/-- Claim C6 (amended): for slots in the code's 1-16 range the single-slot
mask is `2 ^ (slot - 1)` (bit 0 encodes slot 1, bits increasing with the slot
index); slots outside the range are silently ignored, a singleton list
producing the mask string "0". -/
theorem C6_single_slot_mask :
    (∀ slot : Nat, 1 ≤ slot → slot ≤ 16 → slots_mask_value [slot] = 2 ^ (slot - 1)) ∧
    (∀ slot : Nat, ¬ (1 ≤ slot ∧ slot ≤ 16) → time_slots_to_hex [slot] = strZero) := by
  constructor
  · intro slot h1 h2
    interval_cases slot <;> decide
  · intro slot h
    have h0 : slots_mask_value [slot] = 0 := by
      unfold slots_mask_value
      simp [h]
    unfold time_slots_to_hex
    rw [if_neg (by simp), h0]
    decide

/-- Witness for C6 at a concrete input. -/
theorem C6_witness : slots_mask_value [5] = 2 ^ (5 - 1) :=
  C6_single_slot_mask.1 5 (by decide) (by decide)

/-- Claim C7: cancelling an already-cancelled appointment returns false and
leaves the state unchanged; cancelling a Scheduled appointment returns true,
sets the status to Cancelled by Patient and persists it, leaves the schedule
store untouched, and (if at most one Scheduled appointment occupies the
triple and the doctor's mask still includes the slot) makes
`is_slot_available` true again for that (doctor, clinic, date, slot). -/
theorem C7_cancel (st : SysState) (a : Appointment) :
    (a.is_cancelled = true → cancel_appointment st a = (st, false)) ∧
    (a.is_scheduled = true →
      (cancel_appointment st a).2 = true ∧
      (cancel_appointment st a).1.schedules = st.schedules ∧
      a.cancel_by_patient.status = strCancelledByPatient ∧
      (a ∈ st.appointments →
        a.cancel_by_patient ∈ (cancel_appointment st a).1.appointments) ∧
      (AtMostOneScheduled st.appointments → a ∈ st.appointments →
        schedule_is_slot_available st.schedules a.doctor_id a.clinic_id (a.time_slot - 1) =
          true →
        is_slot_available (cancel_appointment st a).1 a.doctor_id a.clinic_id a.date
          a.time_slot = true)) := by
  constructor
  · intro hc
    unfold cancel_appointment
    rw [if_pos hc]
  · intro hs
    have hnc : a.is_cancelled = false := by
      have hst : a.status = strScheduled := eq_of_beq hs
      unfold Appointment.is_cancelled
      rw [hst]
      decide
    unfold cancel_appointment
    rw [if_neg (by simp [hnc])]
    refine ⟨rfl, rfl, rfl, ?_, ?_⟩
    · intro hmem
      show a.cancel_by_patient ∈ repo_update st.appointments a.cancel_by_patient
      unfold repo_update
      have hfa : (fun row => if (row.id == a.cancel_by_patient.id) = true
          then a.cancel_by_patient else row) a = a.cancel_by_patient := by
        simp [Appointment.cancel_by_patient]
      have hmm := List.mem_map_of_mem (fun row => if (row.id == a.cancel_by_patient.id) = true
          then a.cancel_by_patient else row) hmem
      rw [hfa] at hmm
      exact hmm
    · intro hInv hmem hmask
      have hbooked : is_slot_booked (repo_update st.appointments a.cancel_by_patient)
          a.doctor_id a.date a.time_slot = false := by
        rw [is_slot_booked_false_iff]
        intro x hx
        unfold repo_update at hx
        rcases List.mem_map.mp hx with ⟨r, hr, hfr⟩
        by_cases hid : (r.id == a.cancel_by_patient.id) = true
        · rw [if_pos hid] at hfr
          rw [← hfr]
          have h1 : (a.cancel_by_patient).is_scheduled = false := by
            show (strCancelledByPatient == strScheduled) = false
            decide
          by_contra hmx
          rw [Bool.not_eq_false] at hmx
          rw [(matchKey_iff.mp hmx).2.2.2] at h1
          cases h1
        · rw [if_neg hid] at hfr
          rw [← hfr]
          by_contra hmx
          rw [Bool.not_eq_false] at hmx
          have hma : matchKey a.doctor_id a.date a.time_slot a = true :=
            matchKey_iff.mpr ⟨rfl, rfl, rfl, hs⟩
          have hne : r ≠ a := by
            intro he
            apply hid
            rw [he]
            simp [Appointment.cancel_by_patient]
          have h2 := countP_two_le hr hmem hne hmx hma
          have h3 := hInv a.doctor_id a.date a.time_slot
          omega
      simp only [is_slot_available]
      rw [hbooked]
      simpa using hmask

/-- Witness for C7 at a concrete input: after cancelling the only Scheduled
appointment of the slot, the slot is available again. -/
theorem C7_witness :
    is_slot_available (cancel_appointment stC7 apptC7).1 1 1 dateMar10 3 = true :=
  (((C7_cancel stC7 apptC7).2 (by decide)).2.2.2.2)
    (fun _ _ _ => le_trans (List.countP_le_length _) (by decide))
    (by decide) (by decide)

/-- Claim C8, evaluated at the failing input: `cancel_appointment` on a
Completed appointment returns true and moves its status to Cancelled by
Patient — Completed is not a terminal state for this function, contradicting
the claimed state machine; the guard only covers the two cancelled states,
for which the call is indeed a no-op returning false (third conjunct). -/
theorem C8_completed_cancellable :
    (cancel_appointment stC8 apptCompleted).2 = true ∧
    (cancel_appointment stC8 apptCompleted).1.appointments =
      [{ apptCompleted with status := strCancelledByPatient }] ∧
    cancel_appointment stC8 apptCancelled = (stC8, false) := by decide

/-- Counterexample for C9 as stated: an I/O failure at the first read step is
coerced into an empty result set instead of being propagated. -/
theorem C9_counterexample : read_csv [Except.error strDiskFail] = [] := rfl

/-- Claim C9 (amended): `read_csv` swallows an I/O failure and returns exactly
the rows read before it (the whole file when no failure occurs); `write_csv`
swallows a write failure and reports it only as a false return value; a
garbled numeric field, by contrast, raises out of entity parsing (and hence
out of `get_all`), while a missing value silently stays `None`. -/
theorem C9_error_swallowing :
    (∀ (good : List RawRow) (e : IoFailure) (rest : List (Except IoFailure RawRow)),
      read_csv (good.map Except.ok ++ Except.error e :: rest) = good.map processRow) ∧
    (∀ good : List RawRow, read_csv (good.map Except.ok) = good.map processRow) ∧
    (∀ (e : IoFailure) (r : List (String × Option String))
        (rs : List (List (String × Option String))),
      write_csv (some e) (r :: rs) = false) ∧
    pyInt (some strGarbled) = Except.error strBadInt ∧
    pyInt none = Except.ok none := by
  refine ⟨?_, ?_, ?_, rfl, rfl⟩
  · intro good e rest
    induction good with
    | nil => rfl
    | cons r rs ih => simp [read_csv, ih]
  · intro good
    induction good with
    | nil => rfl
    | cons r rs ih => simp [read_csv, ih]
  · intro e r rs
    simp [write_csv]

/-- Claim C10: cancelling a non-cancelled appointment stored in a state with
distinct row ids returns true and relates the old and new appointment files
pointwise: rows with a different id are unchanged, and the updated row keeps
every field except `status`, which becomes Cancelled by Patient. -/
theorem C10_cancel_frame (st : SysState) (a : Appointment)
    (hmem : a ∈ st.appointments) (hnc : a.is_cancelled = false)
    (hids : (st.appointments.map Appointment.id).Nodup) :
    (cancel_appointment st a).2 = true ∧
    List.Forall₂ (rowRel a) st.appointments (cancel_appointment st a).1.appointments := by
  unfold cancel_appointment
  rw [if_neg (by simp [hnc])]
  refine ⟨rfl, ?_⟩
  show List.Forall₂ (rowRel a) st.appointments (repo_update st.appointments a.cancel_by_patient)
  unfold repo_update
  rw [List.forall₂_map_right_iff, List.forall₂_same]
  intro x hx
  by_cases hid : (x.id == a.cancel_by_patient.id) = true
  · have hxid : x.id = a.id := eq_of_beq hid
    have hxa : x = a := nodup_id_eq hids hx hmem hxid
    rw [if_pos hid]
    constructor
    · intro hne
      exact absurd hxid hne
    · intro _
      rw [hxa]
      exact ⟨rfl, rfl, rfl, rfl, rfl, rfl, rfl, rfl⟩
  · rw [if_neg hid]
    constructor
    · intro _
      rfl
    · intro he
      refine absurd ?_ hid
      rw [he]
      simp [Appointment.cancel_by_patient]

/-- Witness for C10 at a concrete input. -/
theorem C10_witness : (cancel_appointment stC10 apptC10a).2 = true :=
  (C10_cancel_frame stC10 apptC10a (by decide) (by decide) (by decide)).1

end FIT5136
